import Mathlib

/-!
Verification of the janebot turn scheduler and sandbox lifecycle manager.

This file gives a shallow embedding, in Lean, of the pure logic of the
repository's core components and proves the specified properties about it:

* the follow-up queue and steering-message detection (follow-up-queue module);
* the pending-turn construction and follow-up batch summarisation;
* the expected-cancellation classifier of the Slack front end;
* the sprite runner pool (acquire / release / retry with backoff);
* the subagent session state machine, its deterministic naming (SHA-256
  based), rehydration and reconciliation (coding-subagent module);
* the SQLite session store upsert (session-store module).

JavaScript strings are modelled as Lean `String` / `List Char`; the regular
expressions used by the steering detector are translated construct by
construct (anchors, character classes, `.*`, word boundaries, alternation,
the `i` flag via ASCII lowercasing).  Machine integers do not overflow in
the modelled code paths except in the SHA-256 core, where 32-bit words are
modelled as `Nat` reduced modulo `2 ^ 32`.
-/

/-! ## Character helpers (JS semantics) -/

/-- ASCII lowercasing; models the effect of the regex `i` flag and of
`String.prototype.toLowerCase` on ASCII data. -/
def asciiLower (c : Char) : Char :=
  if 65 ≤ c.toNat ∧ c.toNat ≤ 90 then Char.ofNat (c.toNat + 32) else c

/-- The JS `\s` class (also the set trimmed by `String.prototype.trim`). -/
def jsWhitespace (c : Char) : Bool :=
  c.toNat ∈ [9, 10, 11, 12, 13, 32, 160, 0x1680,
    0x2000, 0x2001, 0x2002, 0x2003, 0x2004, 0x2005, 0x2006, 0x2007,
    0x2008, 0x2009, 0x200a, 0x2028, 0x2029, 0x202f, 0x205f, 0x3000, 0xfeff]

/-- The JS `\w` class: ASCII letters, digits and underscore. -/
def isWordChar (c : Char) : Bool :=
  (48 ≤ c.toNat && c.toNat ≤ 57) || (65 ≤ c.toNat && c.toNat ≤ 90) ||
    (97 ≤ c.toNat && c.toNat ≤ 122) || c == '_'

/-- What the JS `.` matches (without the `s` flag): anything but a line
terminator. -/
def dotMatches (c : Char) : Bool :=
  !(c.toNat == 10 || c.toNat == 13 || c.toNat == 0x2028 || c.toNat == 0x2029)

/-- `String.prototype.trim`. -/
def jsTrim (l : List Char) : List Char :=
  ((l.dropWhile jsWhitespace).reverse.dropWhile jsWhitespace).reverse

/-- The apostrophe character (U+0027). -/
def apoChar : Char := Char.ofNat 39

/-- The word boundary `\b` immediately after a word character: the rest of
the input must be empty or start with a non-word character. -/
def wordBoundaryAfter : List Char → Bool
  | [] => true
  | c :: _ => !isWordChar c

/-- Literal `kw` (all word characters) matched at the head of `l`, followed
by a `\b`. -/
def kwMatchesHere (kw : List Char) (l : List Char) : Bool :=
  kw.isPrefixOf l && wordBoundaryAfter (l.drop kw.length)

/-! ## Steering-message detection (follow-up-queue module)

`STEERING_PATTERNS` from the source:

* `^actually[\s,].*(?:instead|don't|do not|stop|cancel|ignore|scratch|wait|no)\b` (i)
* `^instead[\s,]` (i)
* `\bignore that\b` (i)
* `\bscratch that\b` (i)
* `\bdon't do that\b` (i)
* `\bdo not do that\b` (i)
* `^(?:stop|cancel|abort|\/abort)$` (i)
-/

/-- Alternation of the first pattern's trailing keyword group. -/
def steeringKeywords : List (List Char) :=
  ["instead".data, "don".data ++ [apoChar] ++ "t".data, "do not".data,
   "stop".data, "cancel".data, "ignore".data, "scratch".data, "wait".data, "no".data]

/-- `.*(?:kw)\b` matched against `l`: either a keyword (with trailing `\b`)
matches at the current position, or the current character is consumed by
`.*` (so it may not be a line terminator) and the search continues. -/
def kwSearch : List Char → Bool
  | [] => false
  | c :: rest =>
    steeringKeywords.any (fun kw => kwMatchesHere kw (c :: rest)) ||
      (dotMatches c && kwSearch rest)

/-- `^actually[\s,].*(?:…)\b` on an (already lowercased) input. -/
def steeringPatternActually (l : List Char) : Bool :=
  "actually".data.isPrefixOf l &&
    (match l.drop 8 with
     | [] => false
     | c :: rest => (jsWhitespace c || c == ',') && kwSearch rest)

/-- `^instead[\s,]` on an (already lowercased) input. -/
def steeringPatternInstead (l : List Char) : Bool :=
  "instead".data.isPrefixOf l &&
    (match l.drop 7 with
     | [] => false
     | c :: _ => jsWhitespace c || c == ',')

/-- `\b` immediately before a word character: start of input or a non-word
character just before. -/
def boundaryBefore : Option Char → Bool
  | none => true
  | some c => !isWordChar c

/-- `\bkw\b` matched somewhere in the input; `prev` is the character just
before the current position. -/
def boundedSearch (kw : List Char) : Option Char → List Char → Bool
  | prev, [] => boundaryBefore prev && kwMatchesHere kw []
  | prev, c :: rest =>
    (boundaryBefore prev && kwMatchesHere kw (c :: rest)) ||
      boundedSearch kw (some c) rest

/-- `\bkw\b` anywhere in `l`. -/
def containsBounded (kw : List Char) (l : List Char) : Bool :=
  boundedSearch kw none l

/-- `don't do that` as a character list. -/
def dontDoThatKw : List Char := "don".data ++ [apoChar] ++ "t do that".data

/-- `^(?:stop|cancel|abort|\/abort)$` on an (already lowercased) input. -/
def steeringPatternBareCommand (l : List Char) : Bool :=
  l == "stop".data || l == "cancel".data || l == "abort".data || l == "/abort".data

/-- `isSteeringMessage` from the follow-up-queue module: trim the raw text,
reject the empty string, and test the steering patterns (case-insensitively). -/
def isSteeringMessage (rawText : String) : Bool :=
  let text := jsTrim rawText.data
  if text.isEmpty then false
  else
    let low := text.map asciiLower
    steeringPatternActually low || steeringPatternInstead low ||
      containsBounded "ignore that".data low ||
      containsBounded "scratch that".data low ||
      containsBounded dontDoThatKw low ||
      containsBounded "do not do that".data low ||
      steeringPatternBareCommand low

/-! ## Follow-up queue (follow-up-queue module) -/

/-- Message origin: an at-mention or a direct message. -/
inductive MsgType where
  | mention
  | dm
deriving DecidableEq, Repr

/-- `QueuedFollowUp` from the source. -/
structure QueuedFollowUp where
  type : MsgType
  userId : String
  eventTs : String
  rawText : String
  isInThread : Bool
deriving DecidableEq, Repr

/-- `FollowUpBatchSummary` from the source. -/
structure FollowUpBatchSummary where
  type : MsgType
  userId : String
  latestEventTs : String
  eventTimestamps : List String
  message : String
  isInThread : Bool
  includeThreadHistory : Bool
  excludedHistoryEventTs : List String
deriving DecidableEq, Repr

/-- `enqueueFollowUp`, acting on the queue stored for one thread key: a
steering message truncates the queue (`queue.length = 0`) before being
pushed. -/
def enqueueFollowUp (queue : List QueuedFollowUp) (message : QueuedFollowUp) :
    List QueuedFollowUp :=
  (if isSteeringMessage message.rawText then [] else queue) ++ [message]

/-- `drainFollowUpBatch`, acting on the queue stored for one thread key:
returns the drained batch and the queue state left behind (the map entry is
deleted, so the remaining queue is empty). -/
def drainFollowUpBatch (queue : List QueuedFollowUp) :
    List QueuedFollowUp × List QueuedFollowUp :=
  (queue, [])

/-- `formatFollowUpPrompt` from the source. -/
def formatFollowUpPrompt (batch : List QueuedFollowUp) : String :=
  match batch with
  | [] => ""
  | [m] => m.rawText
  | _ =>
    String.intercalate "\n\n"
      (batch.map (fun m => "[" ++ m.userId ++ "]: " ++ m.rawText))

/-- Insertion-order deduplication, as performed by
`Array.from(new Set(xs))` in JS: keep the first occurrence of each
element.  `seen` accumulates the elements already emitted. -/
def jsSetDedupGo (seen : List String) : List String → List String
  | [] => []
  | x :: xs =>
    if x ∈ seen then jsSetDedupGo seen xs
    else x :: jsSetDedupGo (x :: seen) xs

/-- `Array.from(new Set(xs))`. -/
def jsSetDedup (xs : List String) : List String := jsSetDedupGo [] xs

/-- `summarizeFollowUpBatch` from the source. -/
def summarizeFollowUpBatch (batch : List QueuedFollowUp) :
    Option FollowUpBatchSummary :=
  match batch.getLast? with
  | none => none
  | some latest =>
    let eventTimestamps := jsSetDedup (batch.map (·.eventTs))
    let inThread := batch.any (·.isInThread)
    some
      { type := latest.type
        userId := latest.userId
        latestEventTs := latest.eventTs
        eventTimestamps := eventTimestamps
        message := formatFollowUpPrompt batch
        isInThread := inThread
        includeThreadHistory := inThread
        excludedHistoryEventTs := eventTimestamps }

/-! ## Expected-cancellation classification (Slack front end) -/

/-- A JS `Error` value, reduced to the fields the classifier reads. -/
structure JsError where
  name : String
  message : String
deriving DecidableEq, Repr

/-- `String.prototype.includes`: `x` occurs as a contiguous substring. -/
def containsSub (x : List Char) : List Char → Bool
  | [] => x.isPrefixOf []
  | c :: rest => x.isPrefixOf (c :: rest) || containsSub x rest

/-- `isExpectedCancellationError` from the source: an explicit
`AbortError` name, or a lowercase message containing `cancelled`,
`canceled` or `aborted`. -/
def isExpectedCancellationError (e : JsError) : Bool :=
  if e.name == "AbortError" then true
  else
    let msg := e.message.data.map asciiLower
    containsSub "cancelled".data msg || containsSub "canceled".data msg ||
      containsSub "aborted".data msg

/-! ## Sprite runner pool (pending-turn / runner-pool module) -/

/-- Runner lifecycle states. -/
inductive RunnerState where
  | initializing
  | ready
  | failed
deriving DecidableEq, Repr

/-- `Runner` from the source. -/
structure Runner where
  name : String
  locked : Bool
  state : RunnerState
  checkpointId : Option String
deriving DecidableEq, Repr

/-- `MAX_INIT_RETRIES` from the source. -/
def MAX_INIT_RETRIES : Nat := 10

/-- `INIT_RETRY_BASE_MS` from the source. -/
def INIT_RETRY_BASE_MS : Nat := 5000

/-- `INIT_RETRY_MAX_MS` from the source. -/
def INIT_RETRY_MAX_MS : Nat := 120000

/-- `RUNNER_PREFIX` from the source. -/
def RUNNER_PREFIX : String := "jane-runner-"

/-- `initRunners`: the pool contents created at startup — exactly `count`
runners, each unlocked, `initializing`, with no checkpoint. -/
def initRunners (count : Nat) : List Runner :=
  (List.range count).map (fun i =>
    { name := RUNNER_PREFIX ++ toString i
      locked := false
      state := RunnerState.initializing
      checkpointId := none })

/-- The backoff delay computed on attempt `attempt` of `initRunnerWithRetry`:
`Math.min(INIT_RETRY_BASE_MS * Math.pow(2, attempt - 1), INIT_RETRY_MAX_MS)`. -/
def retryDelay (attempt : Nat) : Nat :=
  min (INIT_RETRY_BASE_MS * 2 ^ (attempt - 1)) INIT_RETRY_MAX_MS

/-- The retry loop of `initRunnerWithRetry`, abstracted over whether the
provisioning attempt numbered `attempt` succeeds (`outcome attempt = true`)
or throws.  On the first success the runner becomes `ready`; when the
remaining attempt budget reaches zero it becomes `failed`. -/
def initAttempts (outcome : Nat → Bool) (attempt : Nat) : Nat → RunnerState
  | 0 => RunnerState.failed
  | n + 1 =>
    if outcome attempt then RunnerState.ready
    else initAttempts outcome (attempt + 1) n

/-- `initRunnerWithRetry`: attempts numbered `1..MAX_INIT_RETRIES`. -/
def initRunnerWithRetry (outcome : Nat → Bool) : RunnerState :=
  initAttempts outcome 1 MAX_INIT_RETRIES

/-- `runners.find((r) => r.state === "ready" && !r.locked)` followed by the
`runner.locked = true` assignment of `lockRunner`: returns the locked copy
of the first free ready runner together with the updated pool, or `none`. -/
def lockFirstReadyFree : List Runner → Option (Runner × List Runner)
  | [] => none
  | r :: rs =>
    if r.state = RunnerState.ready ∧ r.locked = false then
      some ({ r with locked := true }, { r with locked := true } :: rs)
    else
      match lockFirstReadyFree rs with
      | some (x, rs2) => some (x, r :: rs2)
      | none => none

/-- The outcome of one `acquireRunner()` call, seen up to its first
suspension point. -/
inductive AcquireOutcome where
  | acquired (runner : Runner) (pool : List Runner)
  | enqueued (queue : List Nat)
  | errStillWarmingUp
  | errAllFailed
deriving DecidableEq, Repr

/-- `acquireRunner()` from the source, with waiters identified by opaque
tokens: lock and return the first free ready runner if any; otherwise, if
no runner is `ready` at all, throw — "still warming up" when some runner is
`initializing`, else "All runners failed to initialize"; otherwise push the
caller onto the end of the FIFO wait queue. -/
def acquireStep (pool : List Runner) (queue : List Nat) (waiter : Nat) :
    AcquireOutcome :=
  match lockFirstReadyFree pool with
  | some (r, pool2) => AcquireOutcome.acquired r pool2
  | none =>
    if pool.any (fun r => r.state == RunnerState.ready) = false then
      if pool.any (fun r => r.state == RunnerState.initializing) then
        AcquireOutcome.errStillWarmingUp
      else AcquireOutcome.errAllFailed
    else AcquireOutcome.enqueued (queue ++ [waiter])

/-- The outcome of one `release()` call. -/
inductive ReleaseOutcome where
  | done (runner : Runner) (queue : List Nat) (woken : Option Nat)
  | rebuildFailed (runner : Runner) (queue : List Nat)
deriving DecidableEq, Repr

/-- The `release` closure built by `lockRunner`, abstracted over whether
`restoreCheckpoint` succeeds and over the result of the `rebuildRunner`
fallback (`some cp` = rebuild succeeded producing checkpoint `cp`, `none` =
`buildRunner` threw).  On either success path the runner is unlocked and
the head of the FIFO wait queue (if any) is woken; when the rebuild throws,
the exception propagates before the unlock, leaving the runner locked and
the queue untouched. -/
def releaseRunner (restoreOk : Bool) (rebuildResult : Option String)
    (runner : Runner) (queue : List Nat) : ReleaseOutcome :=
  if restoreOk then
    ReleaseOutcome.done { runner with locked := false } queue.tail queue.head?
  else
    match rebuildResult with
    | some cp =>
      ReleaseOutcome.done { runner with locked := false, checkpointId := some cp }
        queue.tail queue.head?
    | none => ReleaseOutcome.rebuildFailed runner queue

/-! ## SHA-256 (as used by `createHash("sha256")` for deterministic naming)

32-bit words are `Nat` values below `2 ^ 32`; every operation that could
overflow reduces modulo `2 ^ 32`. -/

/-- Reduce to a 32-bit word. -/
def w32 (n : Nat) : Nat := n % 4294967296

/-- Right rotation of a 32-bit word by `n` bits. -/
def rotr32 (n x : Nat) : Nat := x / 2 ^ n + x % 2 ^ n * 2 ^ (32 - n)

/-- Logical right shift of a 32-bit word by `n` bits. -/
def shr32 (n x : Nat) : Nat := x / 2 ^ n

/-- SHA-256 `Σ0`. -/
def sumSig0 (x : Nat) : Nat := rotr32 2 x ^^^ rotr32 13 x ^^^ rotr32 22 x

/-- SHA-256 `Σ1`. -/
def sumSig1 (x : Nat) : Nat := rotr32 6 x ^^^ rotr32 11 x ^^^ rotr32 25 x

/-- SHA-256 `σ0`. -/
def schedSig0 (x : Nat) : Nat := rotr32 7 x ^^^ rotr32 18 x ^^^ shr32 3 x

/-- SHA-256 `σ1`. -/
def schedSig1 (x : Nat) : Nat := rotr32 17 x ^^^ rotr32 19 x ^^^ shr32 10 x

/-- SHA-256 `Ch` (the complement is XOR with the all-ones word). -/
def chF (x y z : Nat) : Nat := (x &&& y) ^^^ ((x ^^^ 4294967295) &&& z)

/-- SHA-256 `Maj`. -/
def majF (x y z : Nat) : Nat := (x &&& y) ^^^ (x &&& z) ^^^ (y &&& z)

/-- The 64 SHA-256 round constants. -/
def sha256K : List Nat :=
  [1116352408, 1899447441, 3049323471, 3921009573,
   961987163, 1508970993, 2453635748, 2870763221,
   3624381080, 310598401, 607225278, 1426881987,
   1925078388, 2162078206, 2614888103, 3248222580,
   3835390401, 4022224774, 264347078, 604807628,
   770255983, 1249150122, 1555081692, 1996064986,
   2554220882, 2821834349, 2952996808, 3210313671,
   3336571891, 3584528711, 113926993, 338241895,
   666307205, 773529912, 1294757372, 1396182291,
   1695183700, 1986661051, 2177026350, 2456956037,
   2730485921, 2820302411, 3259730800, 3345764771,
   3516065817, 3600352804, 4094571909, 275423344,
   430227734, 506948616, 659060556, 883997877,
   958139571, 1322822218, 1537002063, 1747873779,
   1955562222, 2024104815, 2227730452, 2361852424,
   2428436474, 2756734187, 3204031479, 3329325298]

/-- The SHA-256 initial hash value. -/
def sha256H0 : List Nat :=
  [1779033703, 3144134277, 1013904242, 2773480762,
   1359893119, 2600822924, 528734635, 1541459225]

/-- A `Nat` as 8 big-endian bytes. -/
def be64Bytes (n : Nat) : List Nat :=
  [n / 2 ^ 56 % 256, n / 2 ^ 48 % 256, n / 2 ^ 40 % 256, n / 2 ^ 32 % 256,
   n / 2 ^ 24 % 256, n / 2 ^ 16 % 256, n / 2 ^ 8 % 256, n % 256]

/-- SHA-256 padding: append `0x80`, zero bytes to 56 mod 64, then the bit
length as 8 big-endian bytes. -/
def sha256Pad (msg : List Nat) : List Nat :=
  let zeros := (120 - (msg.length + 1) % 64) % 64
  msg ++ [0x80] ++ List.replicate zeros 0 ++ be64Bytes (msg.length * 8)

/-- The 64-byte blocks of a padded message. -/
def sha256ChunkBlocks (padded : List Nat) : List (List Nat) :=
  (List.range (padded.length / 64)).map (fun i => (padded.drop (64 * i)).take 64)

/-- The first 16 words of the message schedule: 4 big-endian bytes each. -/
def blockWords (block : List Nat) : List Nat :=
  (List.range 16).map (fun i =>
    block.getD (4 * i) 0 * 2 ^ 24 + block.getD (4 * i + 1) 0 * 2 ^ 16 +
      block.getD (4 * i + 2) 0 * 2 ^ 8 + block.getD (4 * i + 3) 0)

/-- One extension step of the message schedule. -/
def schedStep (w : List Nat) : List Nat :=
  w ++ [w32 (schedSig1 (w.getD (w.length - 2) 0) + w.getD (w.length - 7) 0 +
    schedSig0 (w.getD (w.length - 15) 0) + w.getD (w.length - 16) 0)]

/-- Iterate a function `n` times. -/
def iterN (f : α → α) : Nat → α → α
  | 0, a => a
  | n + 1, a => iterN f n (f a)

/-- The full 64-word message schedule of one block. -/
def fullSchedule (block : List Nat) : List Nat :=
  iterN schedStep 48 (blockWords block)

/-- One SHA-256 compression round on the working variables `[a..h]`. -/
def compressRound (s : List Nat) (kw : Nat × Nat) : List Nat :=
  match s with
  | [a, b, c, d, e, f, g, hv] =>
    let t1 := w32 (hv + sumSig1 e + chF e f g + kw.1 + kw.2)
    let t2 := w32 (sumSig0 a + majF a b c)
    [w32 (t1 + t2), a, b, c, w32 (d + t1), e, f, g]
  | _ => s

/-- Compress one 64-byte block into the running hash. -/
def compressBlock (hs : List Nat) (block : List Nat) : List Nat :=
  let final := (sha256K.zip (fullSchedule block)).foldl compressRound hs
  (hs.zip final).map (fun p => w32 (p.1 + p.2))

/-- The eight 32-bit words of the SHA-256 digest of a byte sequence. -/
def sha256Words (msg : List Nat) : List Nat :=
  (sha256ChunkBlocks (sha256Pad msg)).foldl compressBlock sha256H0

/-- A hex digit character. -/
def hexDigitChar (n : Nat) : Char :=
  if n < 10 then Char.ofNat (48 + n) else Char.ofNat (87 + n)

/-- A 32-bit word as 8 lowercase hex characters. -/
def word8Hex (n : Nat) : List Char :=
  [hexDigitChar (n / 2 ^ 28 % 16), hexDigitChar (n / 2 ^ 24 % 16),
   hexDigitChar (n / 2 ^ 20 % 16), hexDigitChar (n / 2 ^ 16 % 16),
   hexDigitChar (n / 2 ^ 12 % 16), hexDigitChar (n / 2 ^ 8 % 16),
   hexDigitChar (n / 2 ^ 4 % 16), hexDigitChar (n % 16)]

/-- UTF-8 encoding of one code point. -/
def utf8EncodeChar (n : Nat) : List Nat :=
  if n < 0x80 then [n]
  else if n < 0x800 then [0xc0 + n / 64, 0x80 + n % 64]
  else if n < 0x10000 then
    [0xe0 + n / 4096, 0x80 + n / 64 % 64, 0x80 + n % 64]
  else
    [0xf0 + n / 262144, 0x80 + n / 4096 % 64, 0x80 + n / 64 % 64, 0x80 + n % 64]

/-- UTF-8 bytes of a string, as `crypto.createHash(...).update(s)` sees it. -/
def utf8Bytes (s : String) : List Nat :=
  (s.data.map (fun c => utf8EncodeChar c.toNat)).flatten

/-- `createHash("sha256").update(s).digest("hex")`. -/
def sha256HexOfString (s : String) : String :=
  String.mk ((sha256Words (utf8Bytes s)).map word8Hex).flatten

/-! ## Subagent sessions (coding-subagent module) -/

/-- Session status. -/
inductive SessionStatus where
  | idle
  | running
  | error
deriving DecidableEq, Repr

/-- `SubagentSession` from the source (optional fields as `Option`). -/
structure SubagentSession where
  id : String
  key : String
  channelId : String
  threadTs : String
  sandboxName : String
  piSessionFile : String
  status : SessionStatus
  runningJobId : Option String
  lastJobId : Option String
  lastError : Option String
  turns : Nat
  createdAt : Nat
  updatedAt : Nat
deriving DecidableEq, Repr

/-- `makeThreadKey` from the source. -/
def makeThreadKey (channelId threadTs : String) : String :=
  channelId ++ ":" ++ threadTs

/-- `makeSubagentSessionId`: `sa_` plus the first 16 hex characters of the
SHA-256 of the thread key. -/
def makeSubagentSessionId (threadKey : String) : String :=
  "sa_" ++ (sha256HexOfString threadKey).take 16

/-- `getSandboxName` from sandbox.ts: `jane-` plus the first 12 hex
characters of the SHA-256 of `channelId:threadTs`. -/
def getSandboxName (channelId threadTs : String) : String :=
  "jane-" ++ (sha256HexOfString (makeThreadKey channelId threadTs)).take 12

/-- `sessionsDir` from the source. -/
def sessionsDirPath (homeDir : String) : String := homeDir ++ "/sessions"

/-- The fresh session constructed by `ensureSession` when no session exists
for the thread. -/
def newSessionForThread (homeDir channelId threadTs : String) (now : Nat) :
    SubagentSession :=
  let threadKey := makeThreadKey channelId threadTs
  let subagentSessionId := makeSubagentSessionId threadKey
  { id := subagentSessionId
    key := threadKey
    channelId := channelId
    threadTs := threadTs
    sandboxName := getSandboxName channelId threadTs
    piSessionFile := sessionsDirPath homeDir ++ "/" ++ subagentSessionId ++ ".jsonl"
    status := SessionStatus.idle
    runningJobId := none
    lastJobId := none
    lastError := none
    turns := 0
    createdAt := now
    updatedAt := now }

/-- The session reconstructed by `rehydrateSession` when the store has no
row for the thread but the sandbox exists remotely. -/
def rehydrateSessionModel (homeDir channelId threadTs : String) (now : Nat) :
    SubagentSession :=
  let threadKey := makeThreadKey channelId threadTs
  let subagentSessionId := makeSubagentSessionId threadKey
  { id := subagentSessionId
    key := threadKey
    channelId := channelId
    threadTs := threadTs
    sandboxName := getSandboxName channelId threadTs
    piSessionFile := sessionsDirPath homeDir ++ "/" ++ subagentSessionId ++ ".jsonl"
    status := SessionStatus.idle
    runningJobId := none
    lastJobId := none
    lastError := none
    turns := 0
    createdAt := now
    updatedAt := now }

/-- The dispatch mutation of `sendMessageToSubagent`: assign a fresh job id
and mark the session running (persisted immediately after). -/
def dispatchTurn (jobId : String) (now : Nat) (s : SubagentSession) :
    SubagentSession :=
  { s with runningJobId := some jobId, status := SessionStatus.running,
           updatedAt := now }

/-- The success-path mutation of `sendMessageToSubagent`. -/
def completeTurn (jobId : String) (now : Nat) (s : SubagentSession) :
    SubagentSession :=
  { s with lastJobId := some jobId, runningJobId := none, lastError := none,
           status := SessionStatus.idle, turns := s.turns + 1, updatedAt := now }

/-- The error-path mutation of `runCodingSubagent`'s catch block. -/
def failTurn (errMsg : String) (now : Nat) (s : SubagentSession) :
    SubagentSession :=
  { s with status := SessionStatus.error, lastError := some errMsg,
           runningJobId := none, updatedAt := now }

/-- The mutation of the `abort` action. -/
def abortSession (now : Nat) (s : SubagentSession) : SubagentSession :=
  { s with runningJobId := none, status := SessionStatus.idle, updatedAt := now }

/-- `reconcileRunningSessionState`, abstracted over the process-listing
probe (`alive`): a non-`running` session is untouched; a `running` session
whose pi process is still observed is untouched; otherwise the session is
reset to `idle`, its job id cleared, and persisted.  The Boolean reports
whether `persistSession` was called. -/
def reconcileRunningSessionState (alive : Bool) (now : Nat)
    (s : SubagentSession) : SubagentSession × Bool :=
  if s.status ≠ SessionStatus.running then (s, false)
  else if alive then (s, false)
  else ({ s with status := SessionStatus.idle, runningJobId := none,
                 updatedAt := now }, true)

/-- Outcome of the running-session guard in `runCodingSubagent`'s message
path. -/
inductive MessageGuardOutcome where
  | alreadyRunning (s : SubagentSession)
  | proceed (s : SubagentSession)
deriving DecidableEq, Repr

/-- The guard of `runCodingSubagent` before dispatching a message turn:
reconcile a `running` session first; if it is still `running`, return the
explicit already-running result instead of dispatching. -/
def messageRunningGuard (alive : Bool) (now : Nat) (s : SubagentSession) :
    MessageGuardOutcome :=
  let s1 := if s.status = SessionStatus.running then
    (reconcileRunningSessionState alive now s).1 else s
  if s1.status = SessionStatus.running then MessageGuardOutcome.alreadyRunning s1
  else MessageGuardOutcome.proceed s1

/-- The session invariant: a job id is recorded iff the session is running. -/
def sessionInv (s : SubagentSession) : Prop :=
  s.runningJobId.isSome = true ↔ s.status = SessionStatus.running

/-! ## SQLite session store (session-store module) -/

/-- A row of the `subagent_sessions` table. -/
structure SessionRow where
  id : String
  threadKey : String
  channelId : String
  threadTs : String
  spriteName : String
  piSessionFile : String
  status : SessionStatus
  runningJobId : Option String
  lastJobId : Option String
  lastError : Option String
  turns : Nat
  createdAt : Nat
  updatedAt : Nat
deriving DecidableEq, Repr

/-- The row inserted by `SessionStore.upsert` when no row with this id
exists. -/
def rowInsert (s : SubagentSession) : SessionRow :=
  { id := s.id
    threadKey := s.key
    channelId := s.channelId
    threadTs := s.threadTs
    spriteName := s.sandboxName
    piSessionFile := s.piSessionFile
    status := s.status
    runningJobId := s.runningJobId
    lastJobId := s.lastJobId
    lastError := s.lastError
    turns := s.turns
    createdAt := s.createdAt
    updatedAt := s.updatedAt }

/-- The `ON CONFLICT(id) DO UPDATE SET` clause of `SessionStore.upsert`:
every column except `id` and `created_at` is taken from the excluded (new)
row; `created_at` keeps the value of the existing row `old`. -/
def rowOnConflictUpdate (s : SubagentSession) (old : SessionRow) : SessionRow :=
  { id := old.id
    threadKey := s.key
    channelId := s.channelId
    threadTs := s.threadTs
    spriteName := s.sandboxName
    piSessionFile := s.piSessionFile
    status := s.status
    runningJobId := s.runningJobId
    lastJobId := s.lastJobId
    lastError := s.lastError
    turns := s.turns
    createdAt := old.createdAt
    updatedAt := s.updatedAt }

/-- `SessionStore.upsert` over a table modelled as a row list: on an `id`
conflict the existing row is updated in place (keeping `created_at`),
otherwise the row is inserted.  `none` models the statement throwing on a
`thread_key` UNIQUE violation against a different row. -/
def storeUpsert (s : SubagentSession) (table : List SessionRow) :
    Option (List SessionRow) :=
  if table.any (fun r => r.id == s.id) then
    if table.any (fun r => r.id != s.id && r.threadKey == s.key) then none
    else
      some (table.map (fun r => if r.id == s.id then rowOnConflictUpdate s r else r))
  else if table.any (fun r => r.threadKey == s.key) then none
  else some (table ++ [rowInsert s])

/-! ## Supporting lemmas -/

/-- `jsSetDedupGo` yields a sublist (order-preserving selection) of its
input. -/
theorem jsSetDedupGo_sublist (l : List String) :
    ∀ seen, (jsSetDedupGo seen l).Sublist l := by
  induction l with
  | nil => intro seen; simp [jsSetDedupGo]
  | cons x xs ih =>
    intro seen
    simp only [jsSetDedupGo]
    by_cases hx : x ∈ seen
    · simp only [hx, if_true]
      exact (ih seen).trans (List.sublist_cons_self x xs)
    · simp only [hx, if_false]
      exact (ih (x :: seen)).cons₂ x

/-- Membership in `jsSetDedupGo seen l`: present in `l` and not yet seen. -/
theorem jsSetDedupGo_mem (l : List String) :
    ∀ seen x, x ∈ jsSetDedupGo seen l ↔ x ∈ l ∧ x ∉ seen := by
  induction l with
  | nil => intro seen x; simp [jsSetDedupGo]
  | cons a xs ih =>
    intro seen x
    simp only [jsSetDedupGo]
    by_cases ha : a ∈ seen
    · simp only [ha, if_true, ih seen x, List.mem_cons]
      constructor
      · rintro ⟨hx, hns⟩; exact ⟨Or.inr hx, hns⟩
      · rintro ⟨hx | hx, hns⟩
        · exact absurd (hx ▸ ha) hns
        · exact ⟨hx, hns⟩
    · simp only [ha, if_false, List.mem_cons, ih (a :: seen) x]
      constructor
      · rintro (rfl | ⟨hx, hns⟩)
        · exact ⟨Or.inl rfl, ha⟩
        · exact ⟨Or.inr hx, fun hs => hns (Or.inr hs)⟩
      · rintro ⟨rfl | hx, hns⟩
        · exact Or.inl rfl
        · by_cases hxa : x = a
          · exact Or.inl hxa
          · exact Or.inr ⟨hx, by simp [List.mem_cons, hxa, hns]⟩

/-- `jsSetDedupGo` emits no duplicates. -/
theorem jsSetDedupGo_nodup (l : List String) :
    ∀ seen, (jsSetDedupGo seen l).Nodup := by
  induction l with
  | nil => intro seen; simp [jsSetDedupGo]
  | cons a xs ih =>
    intro seen
    simp only [jsSetDedupGo]
    by_cases ha : a ∈ seen
    · simpa [ha] using ih seen
    · simp only [ha, if_false, List.nodup_cons]
      refine ⟨fun hmem => ?_, ih (a :: seen)⟩
      exact ((jsSetDedupGo_mem xs (a :: seen) a).mp hmem).2 (List.mem_cons_self a seen)

/-- `jsSetDedup` preserves exactly the elements of its input. -/
theorem jsSetDedup_mem (l : List String) (x : String) :
    x ∈ jsSetDedup l ↔ x ∈ l := by
  simp [jsSetDedup, jsSetDedupGo_mem]

/-- `jsSetDedup` emits no duplicates. -/
theorem jsSetDedup_nodup (l : List String) : (jsSetDedup l).Nodup :=
  jsSetDedupGo_nodup l []

/-- `jsSetDedup` preserves arrival order: it is a sublist of its input. -/
theorem jsSetDedup_sublist (l : List String) : (jsSetDedup l).Sublist l :=
  jsSetDedupGo_sublist l []

/-- If every ready runner is locked, the free-runner scan comes up empty. -/
theorem lockFirstReadyFree_eq_none (pool : List Runner)
    (h : ∀ r ∈ pool, r.state = RunnerState.ready → r.locked = true) :
    lockFirstReadyFree pool = none := by
  induction pool with
  | nil => rfl
  | cons p ps ih =>
    simp only [lockFirstReadyFree]
    have hp : ¬(p.state = RunnerState.ready ∧ p.locked = false) := by
      rintro ⟨h1, h2⟩
      exact absurd (h p (List.mem_cons_self p ps) h1) (by simp [h2])
    rw [if_neg hp, ih (fun r hr => h r (List.mem_cons_of_mem p hr))]

/-- A successful free-runner scan returns the locked copy of an unlocked
ready runner of the pool. -/
theorem lockFirstReadyFree_some (pool : List Runner) (r : Runner)
    (pool2 : List Runner) (h : lockFirstReadyFree pool = some (r, pool2)) :
    ∃ r0 ∈ pool, r0.state = RunnerState.ready ∧ r0.locked = false ∧
      r = { r0 with locked := true } := by
  induction pool generalizing pool2 with
  | nil => simp [lockFirstReadyFree] at h
  | cons p ps ih =>
    simp only [lockFirstReadyFree] at h
    by_cases hp : p.state = RunnerState.ready ∧ p.locked = false
    · rw [if_pos hp] at h
      obtain ⟨rfl, -⟩ : { p with locked := true } = r ∧ _ :=
        Prod.mk.injEq .. ▸ Option.some.injEq .. ▸ h
      exact ⟨p, List.mem_cons_self p ps, hp.1, hp.2, rfl⟩
    · rw [if_neg hp] at h
      cases hps : lockFirstReadyFree ps with
      | none => rw [hps] at h; exact absurd h (by simp)
      | some x =>
        rw [hps] at h
        obtain ⟨x1, x2⟩ := x
        obtain ⟨rfl, -⟩ : x1 = r ∧ _ := by
          simpa using h
        obtain ⟨r0, hr0, h1, h2, h3⟩ := ih x2 hps
        exact ⟨r0, List.mem_cons_of_mem p hr0, h1, h2, h3⟩

/-- Exhausting the whole attempt budget leaves the loop in `failed`. -/
theorem initAttempts_all_fail (outcome : Nat → Bool) :
    ∀ remaining attempt, (∀ a, attempt ≤ a → a < attempt + remaining →
      outcome a = false) → initAttempts outcome attempt remaining =
        RunnerState.failed := by
  intro remaining
  induction remaining with
  | zero => intro attempt h; rfl
  | succ n ih =>
    intro attempt h
    simp only [initAttempts, h attempt (Nat.le_refl _) (by omega),
      Bool.false_eq_true, if_false]
    exact ih (attempt + 1) (fun a h1 h2 => h a (by omega) (by omega))

/-! ## Claim theorems -/

/-- C1 (counterexample): an `acquire()` arriving while the single runner is
still `initializing` throws the warming-up error instead of joining the
wait queue, although the runner has not `failed` — refuting both the
"waits (FIFO) until one becomes available" part and the "fails only when
all runners have reached `failed`" part of the claim. -/
theorem acquire_during_warmup_throws :
    acquireStep [{ name := "jane-runner-0", locked := false,
                   state := RunnerState.initializing, checkpointId := none }] [] 0 =
      AcquireOutcome.errStillWarmingUp ∧
    AcquireOutcome.errStillWarmingUp ≠ AcquireOutcome.enqueued ([] ++ [0]) ∧
    RunnerState.initializing ≠ RunnerState.failed := by
  exact ⟨rfl, by decide, by decide⟩

/-- C1 (amended): `acquire()` locks and returns the first unlocked `ready`
runner when one exists; when every `ready` runner is locked but at least
one runner is `ready`, the caller joins the end of the FIFO wait queue;
when no runner is `ready` the call fails immediately — with the warming-up
error if some runner is still `initializing`, and with the all-failed
error otherwise. -/
theorem acquire_behaviour (pool : List Runner) (queue : List Nat) (w : Nat) :
    (∀ r pool2, acquireStep pool queue w = AcquireOutcome.acquired r pool2 →
      ∃ r0 ∈ pool, r0.state = RunnerState.ready ∧ r0.locked = false ∧
        r = { r0 with locked := true }) ∧
    ((∀ r ∈ pool, r.state = RunnerState.ready → r.locked = true) →
      (∃ r ∈ pool, r.state = RunnerState.ready) →
      acquireStep pool queue w = AcquireOutcome.enqueued (queue ++ [w])) ∧
    ((∀ r ∈ pool, r.state ≠ RunnerState.ready) →
      (∃ r ∈ pool, r.state = RunnerState.initializing) →
      acquireStep pool queue w = AcquireOutcome.errStillWarmingUp) ∧
    ((∀ r ∈ pool, r.state ≠ RunnerState.ready) →
      (∀ r ∈ pool, r.state ≠ RunnerState.initializing) →
      acquireStep pool queue w = AcquireOutcome.errAllFailed) := by
  refine ⟨?_, ?_, ?_, ?_⟩
  · intro r pool2 h
    simp only [acquireStep] at h
    cases hl : lockFirstReadyFree pool with
    | none =>
      exfalso
      rw [hl] at h
      by_cases c1 : (pool.any fun r => r.state == RunnerState.ready) = false
      · by_cases c2 : (pool.any fun r => r.state == RunnerState.initializing) = true
        · simp [c1, c2] at h
        · simp [c1, c2] at h
      · simp [c1] at h
    | some x =>
      obtain ⟨x1, x2⟩ := x
      rw [hl] at h
      obtain ⟨rfl, -⟩ : x1 = r ∧ x2 = pool2 := by simpa using h
      exact lockFirstReadyFree_some pool x1 x2 hl
  · intro hlocked hex
    obtain ⟨r, hr, hrs⟩ := hex
    have hany : (pool.any fun r => r.state == RunnerState.ready) = true :=
      List.any_eq_true.mpr ⟨r, hr, by simp [hrs]⟩
    simp [acquireStep, lockFirstReadyFree_eq_none pool hlocked, hany]
  · intro hready hex
    obtain ⟨r, hr, hrs⟩ := hex
    have hnone : lockFirstReadyFree pool = none :=
      lockFirstReadyFree_eq_none pool (fun r hr h => absurd h (hready r hr))
    have hany : (pool.any fun r => r.state == RunnerState.ready) = false := by
      rw [List.any_eq_false]; intro r hrm; simpa using hready r hrm
    have hinit : (pool.any fun r => r.state == RunnerState.initializing) = true :=
      List.any_eq_true.mpr ⟨r, hr, by simp [hrs]⟩
    simp [acquireStep, hnone, hany, hinit]
  · intro hready hinit
    have hnone : lockFirstReadyFree pool = none :=
      lockFirstReadyFree_eq_none pool (fun r hr h => absurd h (hready r hr))
    have hany : (pool.any fun r => r.state == RunnerState.ready) = false := by
      rw [List.any_eq_false]; intro r hrm; simpa using hready r hrm
    have hany2 : (pool.any fun r => r.state == RunnerState.initializing) = false := by
      rw [List.any_eq_false]; intro r hrm; simpa using hinit r hrm
    simp [acquireStep, hnone, hany, hany2]

/-- C1 (witness): on a pool with one unlocked ready runner, the acquired
runner is the locked copy of an unlocked ready pool member. -/
theorem acquire_behaviour_witness :
    ∃ r0 ∈ [({ name := "jane-runner-0", locked := false,
               state := RunnerState.ready, checkpointId := some "cp" } : Runner)],
      r0.state = RunnerState.ready ∧ r0.locked = false ∧
      ({ name := "jane-runner-0", locked := true, state := RunnerState.ready,
         checkpointId := some "cp" } : Runner) = { r0 with locked := true } :=
  (acquire_behaviour [{ name := "jane-runner-0", locked := false,
                        state := RunnerState.ready, checkpointId := some "cp" }] [] 5).1
    { name := "jane-runner-0", locked := true, state := RunnerState.ready,
      checkpointId := some "cp" }
    [{ name := "jane-runner-0", locked := true, state := RunnerState.ready,
       checkpointId := some "cp" }]
    (by decide)

/-- C2 (counterexample): when the checkpoint restore fails and the rebuild
itself throws, `release()` propagates the rebuild error before reaching the
unlock: the runner stays locked and the queued waiter `3` is not woken —
refuting "cleared exactly once … even when the subsequent rebuild itself
fails". -/
theorem release_rebuild_throw_keeps_lock :
    releaseRunner false none
      { name := "jane-runner-0", locked := true, state := RunnerState.ready,
        checkpointId := some "cp" } [3] =
    ReleaseOutcome.rebuildFailed
      { name := "jane-runner-0", locked := true, state := RunnerState.ready,
        checkpointId := some "cp" } [3] := rfl

/-- C2 (amended): whenever the checkpoint restore succeeds, or it fails and
the fallback rebuild succeeds, `release()` clears the runner's `locked`
flag (exactly once — the outcome carries the single unlocked runner) and
wakes the head of the FIFO wait queue; only a rebuild that itself throws
skips the unlock. -/
theorem release_unlocks_on_success_paths (restoreOk : Bool)
    (rebuildResult : Option String) (runner : Runner) (queue : List Nat)
    (h : restoreOk = true ∨ rebuildResult.isSome = true) :
    ∃ r2, releaseRunner restoreOk rebuildResult runner queue =
        ReleaseOutcome.done r2 queue.tail queue.head? ∧
      r2.locked = false ∧ r2.state = runner.state ∧ r2.name = runner.name := by
  cases restoreOk with
  | true => exact ⟨{ runner with locked := false }, rfl, rfl, rfl, rfl⟩
  | false =>
    rcases h with h | h
    · exact absurd h (by simp)
    · cases rebuildResult with
      | none => simp at h
      | some cp =>
        exact ⟨{ runner with locked := false, checkpointId := some cp },
          rfl, rfl, rfl, rfl⟩

/-- C2 (witness): restore fails, rebuild succeeds — the runner comes back
unlocked and waiter `1` (the queue head) is woken. -/
theorem release_unlocks_witness :
    ∃ r2, releaseRunner false (some "cp2")
        { name := "jane-runner-0", locked := true, state := RunnerState.ready,
          checkpointId := some "cp" } [1, 2] =
        ReleaseOutcome.done r2 [2] (some 1) ∧
      r2.locked = false ∧ r2.state = RunnerState.ready ∧
      r2.name = "jane-runner-0" :=
  release_unlocks_on_success_paths false (some "cp2")
    { name := "jane-runner-0", locked := true, state := RunnerState.ready,
      checkpointId := some "cp" } [1, 2] (Or.inr rfl)

/-- C3: every session-mutating operation of the turn executor — dispatch,
successful completion, failure, abort, reconciliation and session creation
(including rehydration) — leaves the session satisfying
`runningJobId is non-null ↔ status = running`; in particular both the
success path and the failure path clear `runningJobId`. -/
theorem session_invariant_all_ops :
    (∀ jobId now s, sessionInv (dispatchTurn jobId now s)) ∧
    (∀ jobId now s, sessionInv (completeTurn jobId now s) ∧
      (completeTurn jobId now s).runningJobId = none) ∧
    (∀ msg now s, sessionInv (failTurn msg now s) ∧
      (failTurn msg now s).runningJobId = none) ∧
    (∀ now s, sessionInv (abortSession now s)) ∧
    (∀ alive now s, sessionInv s →
      sessionInv (reconcileRunningSessionState alive now s).1) ∧
    (∀ homeDir ch ts now, sessionInv (newSessionForThread homeDir ch ts now)) ∧
    (∀ homeDir ch ts now, sessionInv (rehydrateSessionModel homeDir ch ts now)) := by
  refine ⟨?_, ?_, ?_, ?_, ?_, ?_, ?_⟩
  · intro jobId now s; simp [sessionInv, dispatchTurn]
  · intro jobId now s; simp [sessionInv, completeTurn]
  · intro msg now s; simp [sessionInv, failTurn]
  · intro now s; simp [sessionInv, abortSession]
  · intro alive now s hs
    unfold reconcileRunningSessionState
    split
    · exact hs
    · split
      · exact hs
      · simp [sessionInv]
  · intro homeDir ch ts now; simp [sessionInv, newSessionForThread]
  · intro homeDir ch ts now; simp [sessionInv, rehydrateSessionModel]

/-- C3 (witness): the reconcile conjunct applied to a concrete running
session that satisfies the invariant. -/
theorem session_invariant_witness :
    sessionInv (reconcileRunningSessionState false 10
      { id := "sa_x", key := "C1:1", channelId := "C1", threadTs := "1",
        sandboxName := "jane-x", piSessionFile := "/home/sprite/sessions/sa_x.jsonl",
        status := SessionStatus.running, runningJobId := some "job_1",
        lastJobId := none, lastError := none, turns := 0,
        createdAt := 1, updatedAt := 2 }).1 :=
  session_invariant_all_ops.2.2.2.2.1 false 10
    { id := "sa_x", key := "C1:1", channelId := "C1", threadTs := "1",
      sandboxName := "jane-x", piSessionFile := "/home/sprite/sessions/sa_x.jsonl",
      status := SessionStatus.running, runningJobId := some "job_1",
      lastJobId := none, lastError := none, turns := 0,
      createdAt := 1, updatedAt := 2 } (by simp [sessionInv])

/-- C4: a message recognised as steering empties the queue before being
pushed, so the queue afterwards holds exactly that message (a non-steering
message is appended instead); and `isSteeringMessage` evaluates to the
claimed values on the eight concrete probe strings. -/
theorem steering_message_behaviour :
    (∀ (queue : List QueuedFollowUp) (m : QueuedFollowUp),
      isSteeringMessage m.rawText = true → enqueueFollowUp queue m = [m]) ∧
    (∀ (queue : List QueuedFollowUp) (m : QueuedFollowUp),
      isSteeringMessage m.rawText = false →
        enqueueFollowUp queue m = queue ++ [m]) ∧
    isSteeringMessage "Please run the test suite" = false ∧
    isSteeringMessage "This is actually correct" = false ∧
    isSteeringMessage "I used npm instead of yarn" = false ∧
    isSteeringMessage ("don" ++ String.singleton apoChar ++ "t stop believing")
      = false ∧
    isSteeringMessage "please cancel the calendar event" = false ∧
    isSteeringMessage "actually do this instead" = true ∧
    isSteeringMessage "ignore that and refactor this" = true ∧
    isSteeringMessage "scratch that" = true := by
  refine ⟨?_, ?_, by decide, by decide, by decide, by decide, by decide,
    by decide, by decide, by decide⟩
  · intro queue m h; simp [enqueueFollowUp, h]
  · intro queue m h; simp [enqueueFollowUp, h]

/-- C4 (witness): a concrete steering message wipes a concrete one-element
queue. -/
theorem steering_message_witness :
    enqueueFollowUp
      [{ type := MsgType.mention, userId := "U1", eventTs := "1",
         rawText := "run tests", isInThread := true }]
      { type := MsgType.mention, userId := "U1", eventTs := "2",
        rawText := "scratch that", isInThread := true } =
    [{ type := MsgType.mention, userId := "U1", eventTs := "2",
       rawText := "scratch that", isInThread := true }] :=
  steering_message_behaviour.1
    [{ type := MsgType.mention, userId := "U1", eventTs := "1",
       rawText := "run tests", isInThread := true }]
    { type := MsgType.mention, userId := "U1", eventTs := "2",
      rawText := "scratch that", isInThread := true } (by decide)

/-- C5: draining a non-empty follow-up queue empties it and returns the
whole batch; the summary's message is the bare text for a singleton batch
and the blank-line-joined `[user]: text` lines otherwise; its event
identifiers are the drained identifiers deduplicated keeping first
occurrences in arrival order; history inclusion holds iff some drained
item was in-thread; and the excluded-history identifiers coincide with the
event identifiers. -/
theorem drain_and_summarize_batch (queue : List QueuedFollowUp)
    (hne : queue ≠ []) :
    (drainFollowUpBatch queue).1 = queue ∧
    (drainFollowUpBatch queue).2 = [] ∧
    ∃ σ, summarizeFollowUpBatch queue = some σ ∧
      (∀ m, queue = [m] → σ.message = m.rawText) ∧
      (2 ≤ queue.length → σ.message = String.intercalate "\n\n"
        (queue.map (fun m => "[" ++ m.userId ++ "]: " ++ m.rawText))) ∧
      σ.eventTimestamps = jsSetDedup (queue.map (·.eventTs)) ∧
      σ.eventTimestamps.Nodup ∧
      (∀ ts, ts ∈ σ.eventTimestamps ↔ ts ∈ queue.map (·.eventTs)) ∧
      σ.eventTimestamps.Sublist (queue.map (·.eventTs)) ∧
      (σ.includeThreadHistory = true ↔ ∃ m ∈ queue, m.isInThread = true) ∧
      σ.excludedHistoryEventTs = σ.eventTimestamps := by
  obtain ⟨latest, hlast⟩ : ∃ l, queue.getLast? = some l := by
    cases hq : queue.getLast? with
    | none => exact absurd (List.getLast?_eq_none_iff.mp hq) hne
    | some l => exact ⟨l, rfl⟩
  refine ⟨rfl, rfl, ?_⟩
  simp only [summarizeFollowUpBatch, hlast]
  refine ⟨_, rfl, ?_, ?_, rfl, jsSetDedup_nodup _, fun ts => jsSetDedup_mem _ ts,
    jsSetDedup_sublist _, List.any_eq_true, rfl⟩
  · intro m hm
    subst hm
    simp [formatFollowUpPrompt]
  · intro h2
    cases queue with
    | nil => exact absurd rfl hne
    | cons a tail =>
      cases tail with
      | nil => simp at h2
      | cons b rest => rfl

/-- C5 (witness): draining a concrete two-element queue leaves it empty. -/
theorem drain_and_summarize_witness :
    (drainFollowUpBatch
      [{ type := MsgType.mention, userId := "U1", eventTs := "1",
         rawText := "run tests", isInThread := true },
       { type := MsgType.dm, userId := "U2", eventTs := "2",
         rawText := "also update docs", isInThread := false }]).2 = [] :=
  (drain_and_summarize_batch
    [{ type := MsgType.mention, userId := "U1", eventTs := "1",
       rawText := "run tests", isInThread := true },
     { type := MsgType.dm, userId := "U2", eventTs := "2",
       rawText := "also update docs", isInThread := false }] (by decide)).2.1

/-- C6: the classifier the catch branch of `processMessage` uses does NOT
rely only on an explicit tag — an error named plain `Error` whose message
merely contains the generic text "aborted due to timeout" is classified as
an expected user-initiated cancellation, contradicting the claim. -/
theorem generic_aborted_text_treated_as_user_abort :
    isExpectedCancellationError
      { name := "Error", message := "aborted due to timeout" } = true ∧
    ("Error" : String) ≠ "AbortError" := by
  exact ⟨by decide, by decide⟩

/-- C7: a session found `running` whose backing pi process is not
observably alive is repaired — status reset to `idle`, `runningJobId`
cleared, the repaired state persisted — and the message path proceeds with
the repaired session; if the process is still alive the session is left
unchanged, nothing is persisted, and the guard returns the explicit
already-running result instead of dispatching. -/
theorem reconcile_running_session (alive : Bool) (now : Nat)
    (s : SubagentSession) :
    (s.status = SessionStatus.running → alive = false →
      reconcileRunningSessionState alive now s =
        ({ s with status := SessionStatus.idle, runningJobId := none,
                  updatedAt := now }, true) ∧
      messageRunningGuard alive now s =
        MessageGuardOutcome.proceed
          { s with status := SessionStatus.idle, runningJobId := none,
                   updatedAt := now }) ∧
    (s.status = SessionStatus.running → alive = true →
      reconcileRunningSessionState alive now s = (s, false) ∧
      messageRunningGuard alive now s =
        MessageGuardOutcome.alreadyRunning s) := by
  constructor
  · intro hrun halive
    subst halive
    have h1 : reconcileRunningSessionState false now s =
        ({ s with status := SessionStatus.idle, runningJobId := none,
                  updatedAt := now }, true) := by
      simp [reconcileRunningSessionState, hrun]
    refine ⟨h1, ?_⟩
    simp [messageRunningGuard, hrun, h1]
  · intro hrun halive
    subst halive
    have h1 : reconcileRunningSessionState true now s = (s, false) := by
      simp [reconcileRunningSessionState, hrun]
    refine ⟨h1, ?_⟩
    simp [messageRunningGuard, hrun, h1]

/-- C7 (witness): a concrete dangling `running` session (no live process)
is repaired to `idle` with its job id cleared and persisted, and the
message path proceeds. -/
theorem reconcile_running_session_witness :
    reconcileRunningSessionState false 42
      { id := "sa_y", key := "C2:9", channelId := "C2", threadTs := "9",
        sandboxName := "jane-y", piSessionFile := "/home/sprite/sessions/sa_y.jsonl",
        status := SessionStatus.running, runningJobId := some "job_9",
        lastJobId := some "job_8", lastError := none, turns := 3,
        createdAt := 5, updatedAt := 6 } =
      ({ id := "sa_y", key := "C2:9", channelId := "C2", threadTs := "9",
         sandboxName := "jane-y", piSessionFile := "/home/sprite/sessions/sa_y.jsonl",
         status := SessionStatus.idle, runningJobId := none,
         lastJobId := some "job_8", lastError := none, turns := 3,
         createdAt := 5, updatedAt := 42 }, true) ∧
    messageRunningGuard false 42
      { id := "sa_y", key := "C2:9", channelId := "C2", threadTs := "9",
        sandboxName := "jane-y", piSessionFile := "/home/sprite/sessions/sa_y.jsonl",
        status := SessionStatus.running, runningJobId := some "job_9",
        lastJobId := some "job_8", lastError := none, turns := 3,
        createdAt := 5, updatedAt := 6 } =
      MessageGuardOutcome.proceed
        { id := "sa_y", key := "C2:9", channelId := "C2", threadTs := "9",
          sandboxName := "jane-y", piSessionFile := "/home/sprite/sessions/sa_y.jsonl",
          status := SessionStatus.idle, runningJobId := none,
          lastJobId := some "job_8", lastError := none, turns := 3,
          createdAt := 5, updatedAt := 42 } :=
  (reconcile_running_session false 42
    { id := "sa_y", key := "C2:9", channelId := "C2", threadTs := "9",
      sandboxName := "jane-y", piSessionFile := "/home/sprite/sessions/sa_y.jsonl",
      status := SessionStatus.running, runningJobId := some "job_9",
      lastJobId := some "job_8", lastError := none, turns := 3,
      createdAt := 5, updatedAt := 6 }).1 rfl rfl

/-- SHA-256 sanity anchor for the naming scheme: the embedded hash agrees
with the standard test vectors for `"abc"` and the empty string. -/
theorem sha256_test_vectors :
    sha256HexOfString "abc" =
      "ba7816bf8f01cfea414140de5dae2223b00361a396177a9cb410ff61f20015ad" ∧
    sha256HexOfString "" =
      "e3b0c44298fc1c149afbf4c8996fb92427ae41e4649b934ca495991b7852b855" := by
  exact ⟨by decide, by decide⟩

set_option maxRecDepth 8192 in
/-- C8: the session id and sandbox name are fixed prefixes plus truncations
of the same SHA-256 of the conversation key alone, so rehydration after
store loss (at any later time `n2`) reproduces exactly the id and sandbox
name of the session first created at time `n1`; concretely, for
`C123:456.789` both derive from hash `471b7c8fc1b8…`. -/
theorem deterministic_session_identity (homeDir channelId threadTs : String)
    (n1 n2 : Nat) :
    (rehydrateSessionModel homeDir channelId threadTs n2).id =
      (newSessionForThread homeDir channelId threadTs n1).id ∧
    (rehydrateSessionModel homeDir channelId threadTs n2).sandboxName =
      (newSessionForThread homeDir channelId threadTs n1).sandboxName ∧
    (newSessionForThread homeDir channelId threadTs n1).id =
      "sa_" ++ (sha256HexOfString (channelId ++ ":" ++ threadTs)).take 16 ∧
    (newSessionForThread homeDir channelId threadTs n1).sandboxName =
      "jane-" ++ (sha256HexOfString (channelId ++ ":" ++ threadTs)).take 12 ∧
    (rehydrateSessionModel "/home/sprite" "C123" "456.789" 99).id =
      "sa_471b7c8fc1b8d458" ∧
    (rehydrateSessionModel "/home/sprite" "C123" "456.789" 99).sandboxName =
      "jane-471b7c8fc1b8" := by
  exact ⟨rfl, rfl, rfl, rfl, by decide, by decide⟩

/-- C9: provisioning retries with delay `min(base · 2^(attempt-1), cap)`;
a runner whose every attempt in the budget fails ends `failed`; an acquire
can only ever hand out a `ready` runner (never a `failed` one); the pool
holds exactly the configured number of runners; and release never changes
a runner's lifecycle state (so `failed` is permanent across the pool
operations modelled here). -/
theorem runner_retry_policy_and_exclusion :
    (∀ attempt, retryDelay attempt =
      min (INIT_RETRY_BASE_MS * 2 ^ (attempt - 1)) INIT_RETRY_MAX_MS) ∧
    (∀ outcome : Nat → Bool,
      (∀ a, 1 ≤ a → a ≤ MAX_INIT_RETRIES → outcome a = false) →
      initRunnerWithRetry outcome = RunnerState.failed) ∧
    (∀ pool queue w r pool2,
      acquireStep pool queue w = AcquireOutcome.acquired r pool2 →
      r.state = RunnerState.ready) ∧
    (∀ count, (initRunners count).length = count) ∧
    (∀ restoreOk rebuildResult runner queue r2 q2 wk,
      releaseRunner restoreOk rebuildResult runner queue =
        ReleaseOutcome.done r2 q2 wk → r2.state = runner.state) := by
  refine ⟨fun attempt => rfl, ?_, ?_, ?_, ?_⟩
  · intro outcome h
    exact initAttempts_all_fail outcome MAX_INIT_RETRIES 1
      (fun a h1 h2 => h a h1 (by omega))
  · intro pool queue w r pool2 h
    obtain ⟨r0, -, hs, -, rfl⟩ := (acquire_behaviour pool queue w).1 r pool2 h
    simpa using hs
  · intro count
    simp [initRunners]
  · intro restoreOk rebuildResult runner queue r2 q2 wk h
    unfold releaseRunner at h
    split at h
    · obtain ⟨rfl, -⟩ : ({ runner with locked := false } : Runner) = r2 ∧ _ := by
        simpa using h
      rfl
    · split at h
      · obtain ⟨rfl, -⟩ :
            ({ runner with locked := false, checkpointId := some _ } : Runner)
              = r2 ∧ _ := by
          simpa using h
        rfl
      · exact absurd h (by simp)

/-- C9 (witness): a runner all of whose ten provisioning attempts fail ends
in the permanent `failed` state. -/
theorem runner_retry_witness :
    initRunnerWithRetry (fun _ => false) = RunnerState.failed :=
  runner_retry_policy_and_exclusion.2.1 (fun _ => false)
    (fun _ _ _ => rfl)

/-- C10: on an `id` conflict, `SessionStore.upsert` overwrites every other
column of the existing row — thread key, channel, thread, sandbox (sprite)
name, session file, status, job ids, last error, turn count, `updated_at` —
with the new values, while `created_at` keeps the original row's value. -/
theorem upsert_keeps_created_at (s : SubagentSession) (t : List SessionRow)
    (r : SessionRow) (hmem : r ∈ t) (hid : r.id = s.id)
    (hkey : ∀ r2 ∈ t, r2.id ≠ s.id → r2.threadKey ≠ s.key) :
    storeUpsert s t = some (t.map (fun x =>
      if x.id == s.id then rowOnConflictUpdate s x else x)) ∧
    (rowOnConflictUpdate s r).createdAt = r.createdAt ∧
    (rowOnConflictUpdate s r).id = r.id ∧
    (rowOnConflictUpdate s r).threadKey = s.key ∧
    (rowOnConflictUpdate s r).channelId = s.channelId ∧
    (rowOnConflictUpdate s r).threadTs = s.threadTs ∧
    (rowOnConflictUpdate s r).spriteName = s.sandboxName ∧
    (rowOnConflictUpdate s r).piSessionFile = s.piSessionFile ∧
    (rowOnConflictUpdate s r).status = s.status ∧
    (rowOnConflictUpdate s r).runningJobId = s.runningJobId ∧
    (rowOnConflictUpdate s r).lastJobId = s.lastJobId ∧
    (rowOnConflictUpdate s r).lastError = s.lastError ∧
    (rowOnConflictUpdate s r).turns = s.turns ∧
    (rowOnConflictUpdate s r).updatedAt = s.updatedAt := by
  have h1 : (t.any fun x => x.id == s.id) = true :=
    List.any_eq_true.mpr ⟨r, hmem, by simp [hid]⟩
  have h2 : (t.any fun x => x.id != s.id && x.threadKey == s.key) = false := by
    rw [List.any_eq_false]
    intro x hx
    simp only [Bool.and_eq_true, bne_iff_ne, beq_iff_eq, not_and]
    exact hkey x hx
  refine ⟨?_, rfl, rfl, rfl, rfl, rfl, rfl, rfl, rfl, rfl, rfl, rfl, rfl, rfl⟩
  simp [storeUpsert, h1, h2]

/-- C10 (witness): upserting a session over a one-row table with the same
id rewrites the row in place, keeping only `created_at` (1000) from the
old row. -/
theorem upsert_keeps_created_at_witness :
    storeUpsert
      { id := "sa_z", key := "C3:5", channelId := "C3", threadTs := "5",
        sandboxName := "jane-z", piSessionFile := "/home/sprite/sessions/sa_z.jsonl",
        status := SessionStatus.idle, runningJobId := none,
        lastJobId := some "job_2", lastError := none, turns := 2,
        createdAt := 2000, updatedAt := 2500 }
      [{ id := "sa_z", threadKey := "C3:5", channelId := "C3", threadTs := "5",
         spriteName := "jane-z", piSessionFile := "/home/sprite/sessions/sa_z.jsonl",
         status := SessionStatus.running, runningJobId := some "job_2",
         lastJobId := some "job_1", lastError := none, turns := 1,
         createdAt := 1000, updatedAt := 1500 }] =
    some [{ id := "sa_z", threadKey := "C3:5", channelId := "C3", threadTs := "5",
            spriteName := "jane-z", piSessionFile := "/home/sprite/sessions/sa_z.jsonl",
            status := SessionStatus.idle, runningJobId := none,
            lastJobId := some "job_2", lastError := none, turns := 2,
            createdAt := 1000, updatedAt := 2500 }] :=
  (upsert_keeps_created_at
    { id := "sa_z", key := "C3:5", channelId := "C3", threadTs := "5",
      sandboxName := "jane-z", piSessionFile := "/home/sprite/sessions/sa_z.jsonl",
      status := SessionStatus.idle, runningJobId := none,
      lastJobId := some "job_2", lastError := none, turns := 2,
      createdAt := 2000, updatedAt := 2500 }
    [{ id := "sa_z", threadKey := "C3:5", channelId := "C3", threadTs := "5",
       spriteName := "jane-z", piSessionFile := "/home/sprite/sessions/sa_z.jsonl",
       status := SessionStatus.running, runningJobId := some "job_2",
       lastJobId := some "job_1", lastError := none, turns := 1,
       createdAt := 1000, updatedAt := 1500 }]
    { id := "sa_z", threadKey := "C3:5", channelId := "C3", threadTs := "5",
      spriteName := "jane-z", piSessionFile := "/home/sprite/sessions/sa_z.jsonl",
      status := SessionStatus.running, runningJobId := some "job_2",
      lastJobId := some "job_1", lastError := none, turns := 1,
      createdAt := 1000, updatedAt := 1500 }
    (by simp) rfl (by intro r2 h2 hne; simp at h2; simp [h2] at hne)).1

/-- C8 (witness): the identity derivation instantiated on the concrete
conversation key `C123:456.789` across two different creation times. -/
theorem deterministic_session_identity_witness :
    (rehydrateSessionModel "/home/sprite" "C123" "456.789" 2).id =
      (newSessionForThread "/home/sprite" "C123" "456.789" 1).id ∧
    (rehydrateSessionModel "/home/sprite" "C123" "456.789" 2).sandboxName =
      (newSessionForThread "/home/sprite" "C123" "456.789" 1).sandboxName ∧
    (newSessionForThread "/home/sprite" "C123" "456.789" 1).id =
      "sa_" ++ (sha256HexOfString ("C123" ++ ":" ++ "456.789")).take 16 ∧
    (newSessionForThread "/home/sprite" "C123" "456.789" 1).sandboxName =
      "jane-" ++ (sha256HexOfString ("C123" ++ ":" ++ "456.789")).take 12 ∧
    (rehydrateSessionModel "/home/sprite" "C123" "456.789" 99).id =
      "sa_471b7c8fc1b8d458" ∧
    (rehydrateSessionModel "/home/sprite" "C123" "456.789" 99).sandboxName =
      "jane-471b7c8fc1b8" :=
  deterministic_session_identity "/home/sprite" "C123" "456.789" 1 2
